import Mathlib

/-!
Shallow embedding of `vCard2PDF.py`: a vCard parser (`parse_vcard`) and a
PDF renderer (`build_pdf`).  Python strings are modelled as Lean `String`,
with the Python string primitives (split, strip, upper, lower, replace,
startswith, endswith, splitlines) re-implemented over `List Char` so that
every definition is executable and kernel-reducible.  Coordinates are
modelled as rationals; the drawing backend (reportlab canvas) is modelled
as a list of emitted drawing operations, with the text-measurement
primitive `stringWidth` and the base64 decoder taken as parameters (they
are external collaborator capabilities of the program).
-/

/-- Python `str.split(sep)` for a single-character separator, on char lists.
`splitChar c l` always returns a non-empty list of fragments. -/
def splitChar (c : Char) : List Char → List (List Char)
  | [] => [[]]
  | x :: xs =>
    if x == c then [] :: splitChar c xs
    else
      match splitChar c xs with
      | [] => [[x]]
      | h :: t => (x :: h) :: t

/-- Single-character split on strings (Python `s.split(c)`). -/
def pySplitChar (c : Char) (s : String) : List String :=
  (splitChar c s.data).map String.mk

/-- The set of characters Python `str.strip()` removes (ASCII whitespace). -/
def isPySpace (c : Char) : Bool :=
  c == ' ' || c == '\t' || c == '\n' || c == '\r' || c == Char.ofNat 11 || c == Char.ofNat 12

/-- Python `str.strip()`. -/
def pyStrip (s : String) : String :=
  String.mk (((s.data.dropWhile isPySpace).reverse.dropWhile isPySpace).reverse)

/-- Python `str.rstrip(c)` for a single strip character. -/
def pyRStripChar (c : Char) (s : String) : String :=
  String.mk ((s.data.reverse.dropWhile (fun x => x == c)).reverse)

/-- Python `str.upper()` (ASCII). -/
def pyUpper (s : String) : String :=
  String.mk (s.data.map Char.toUpper)

/-- Python `str.lower()` (ASCII). -/
def pyLower (s : String) : String :=
  String.mk (s.data.map Char.toLower)

/-- Python `c in s` membership test for a single character. -/
def strContains (s : String) (c : Char) : Bool :=
  s.data.any (fun x => x == c)

/-- Python `s.startswith(p)`. -/
def pyStartsWith (s p : String) : Bool :=
  p.data.isPrefixOf s.data

/-- Python `s.endswith(p)`. -/
def pyEndsWith (s p : String) : Bool :=
  p.data.isSuffixOf s.data

/-- Python `s.split(c, 1)`: split at the first occurrence of `c`; if `c`
does not occur the second component is empty (only used after a
containment check, as in the source). -/
def splitFirst (c : Char) (s : String) : String × String :=
  let i := s.data.findIdx (fun x => x == c)
  (String.mk (s.data.take i), String.mk (s.data.drop (i + 1)))

/-- Python `s.replace(⟨a,b⟩, rep)` for a two-character pattern: sequential
left-to-right replacement, continuing after each replacement. -/
def replace2 (a b : Char) (rep : List Char) : List Char → List Char
  | [] => []
  | [x] => [x]
  | x :: y :: rest =>
    if x == a && y == b then rep ++ replace2 a b rep rest
    else x :: replace2 a b rep (y :: rest)

/-- `unescape` from `parse_vcard`: the four sequential `str.replace` calls
turning the escapes `\n`, `\N`, `\,`, `\;` into newline, comma, semicolon. -/
def unescape (s : String) : String :=
  String.mk
    (replace2 '\\' ';' [';']
      (replace2 '\\' ',' [',']
        (replace2 '\\' 'N' ['\n']
          (replace2 '\\' 'n' ['\n'] s.data))))

/-- Python `str.splitlines()` restricted to the line terminators the input
format uses: `\n`, `\r\n` and `\r`.  A trailing terminator produces no
final empty line, and an empty string yields no lines, as in Python. -/
def splitLinesAux : List Char → List Char → List String
  | [], [] => []
  | [], cur => [String.mk cur.reverse]
  | '\r' :: '\n' :: rest, cur => String.mk cur.reverse :: splitLinesAux rest []
  | '\n' :: rest, cur => String.mk cur.reverse :: splitLinesAux rest []
  | '\r' :: rest, cur => String.mk cur.reverse :: splitLinesAux rest []
  | c :: rest, cur => splitLinesAux rest (c :: cur)

/-- Python `text.splitlines()`. -/
def splitLines (s : String) : List String :=
  splitLinesAux s.data []

/-- One vCard property value together with its normalized parameter tokens
(`{"value": ..., "params": [...]}` in the source). -/
structure AnnotatedValue where
  value : String
  params : List String
deriving DecidableEq

/-- The structured record produced by `parse_vcard` (the `data` dict). -/
structure VCardData where
  FN : Option String
  ORG : Option String
  DEPT : Option String
  TITLE : Option String
  TEL : List AnnotatedValue
  EMAIL : List AnnotatedValue
  ADR : List AnnotatedValue
  URL : List AnnotatedValue
  NOTE : List String
  SOCIAL : List AnnotatedValue
  PHOTO : Option (List Nat)
  VERSION : Option String
  PRODID : Option String
deriving DecidableEq

/-- The initial `data` dictionary of `parse_vcard`. -/
def emptyVCard : VCardData :=
  ⟨none, none, none, none, [], [], [], [], [], [], none, none, none⟩

/-- Python truthiness of an optional string field: `None` and the empty
string are falsy. -/
def falsy : Option String → Bool
  | none => true
  | some s => s == ""

/-- vCard line unfolding, one physical line at a time (the body of the
first loop of `parse_vcard`): blank lines are dropped; a line starting
with space or tab is appended to the previous logical line with its first
character removed, provided a previous logical line exists; every other
line starts a new logical line (with trailing newlines stripped). -/
def unfoldStep (acc : List String) (line : String) : List String :=
  if pyStrip line == "" then acc
  else if (line.data.headD 'x' == ' ' || line.data.headD 'x' == '\t') && !acc.isEmpty then
    acc.dropLast ++ [acc.getLastD "" ++ String.mk (line.data.drop 1)]
  else acc ++ [pyRStripChar '\n' line]

/-- Unfolding of all physical lines into logical lines. -/
def unfoldLines (ls : List String) : List String :=
  ls.foldl unfoldStep []

/-- `split_key_and_params` from `parse_vcard`: split the key part on `;`;
the first piece (uppercased) is the key; every later piece is stripped,
dropped if empty, and otherwise contributes the text after the first `=`
(or the whole piece) uppercased. -/
def split_key_and_params (key_part : String) : String × List String :=
  let pieces := pySplitChar ';' key_part
  let base := pyUpper (pieces.headD "")
  let params := pieces.tail.filterMap (fun p =>
    let q := pyStrip p
    if q == "" then none
    else if strContains q '=' then some (pyUpper (splitFirst '=' q).2)
    else some (pyUpper q))
  (base, params)

/-- The if/elif dispatch chain of `parse_vcard`'s main loop, over the
already-extracted key, parameter tokens and stripped value of one logical
line.  `dec` is the base64 decoder (`base64.b64decode` wrapped in
try/except), modelled as a partial function to byte lists. -/
def dispatch (dec : String → Option (List Nat)) (d : VCardData) (key : String)
    (params : List String) (value : String) : VCardData :=
  if key = "FN" then (if falsy d.FN then { d with FN := some value } else d)
  else if key = "ORG" then
    (if falsy d.ORG then
      let org_clean := pyRStripChar ';' value
      let parts := pySplitChar ';' org_clean
      let d1 := { d with ORG := some (parts.headD "") }
      if 1 < parts.length ∧ pyStrip (parts.getD 1 "") ≠ "" then
        { d1 with DEPT := some (pyStrip (parts.getD 1 "")) }
      else d1
    else d)
  else if key = "TITLE" then (if falsy d.TITLE then { d with TITLE := some value } else d)
  else if key = "TEL" then { d with TEL := d.TEL ++ [⟨value, params⟩] }
  else if key = "EMAIL" then { d with EMAIL := d.EMAIL ++ [⟨value, params⟩] }
  else if key = "ADR" then { d with ADR := d.ADR ++ [⟨unescape value, params⟩] }
  else if key = "URL" ∨ pyEndsWith key ".URL" then { d with URL := d.URL ++ [⟨value, params⟩] }
  else if key = "NOTE" then { d with NOTE := d.NOTE ++ [unescape value] }
  else if key = "X-SOCIALPROFILE" then { d with SOCIAL := d.SOCIAL ++ [⟨value, params⟩] }
  else if key = "PHOTO" then
    (match dec value with
     | some p => { d with PHOTO := some p }
     | none => d)
  else if key = "VERSION" then { d with VERSION := some value }
  else if key = "PRODID" then { d with PRODID := some value }
  else d

/-- One logical line of `parse_vcard`'s main loop: skip lines without a
colon, split off the key part at the first colon, extract key and
parameters, strip the value, and dispatch. -/
def processLine (dec : String → Option (List Nat)) (d : VCardData) (line : String) :
    VCardData :=
  if strContains line ':' = false then d
  else
    let kv := splitFirst ':' line
    let kp := split_key_and_params kv.1
    dispatch dec d kp.1 kp.2 (pyStrip kv.2)

/-- Processing of a list of logical lines (the main loop of `parse_vcard`). -/
def processLines (dec : String → Option (List Nat)) (ls : List String) (d : VCardData) :
    VCardData :=
  ls.foldl (processLine dec) d

/-- `parse_vcard`: unfold the physical lines of the input text and process
every logical line, starting from the empty record. -/
def parse_vcard (dec : String → Option (List Nat)) (text : String) : VCardData :=
  processLines dec (unfoldLines (splitLines text)) emptyVCard

/-- A base64 decoder that always fails, usable to instantiate `parse_vcard`
on inputs without photo data. -/
def decNone : String → Option (List Nat) := fun _ => none

example : (parse_vcard decNone "FN:Alice\nFN:Bob").FN = some "Alice" := by decide
example : (parse_vcard decNone "FN:\nFN:Bob").FN = some "Bob" := by decide
example : unfoldLines (splitLines " X:1") = [" X:1"] := by decide
example : (parse_vcard decNone "BEGIN:VCARD\nORG:Acme;Sales;X\nEND:VCARD").ORG = some "Acme" := by decide
example : (parse_vcard decNone "ORG:Acme;Sales;X").DEPT = some "Sales" := by decide
example : (parse_vcard decNone "item1.URL:http://x").URL = [⟨"http://x", []⟩] := by decide
example : (parse_vcard decNone "TEL;TYPE=CELL;TYPE=pref:+491234").TEL = [⟨"+491234", ["CELL", "PREF"]⟩] := by decide
example : (parse_vcard decNone "FN:Li\n ne").FN = some "Line" := by decide

/-- A drawing operation emitted to the reportlab canvas: `text` is
`drawString` (with the font set immediately before), `rtext` is
`drawRightString`, `page` is `showPage`, `link` is `linkURL` with its
rectangle. -/
inductive DrawOp where
  | text (font : String) (size : ℚ) (x : ℚ) (yPos : ℚ) (s : String)
  | rtext (font : String) (size : ℚ) (x : ℚ) (yPos : ℚ) (s : String)
  | page
  | link (url : String) (x1 y1 x2 y2 : ℚ)
deriving DecidableEq

/-- Renderer state inside `build_pdf`: the current vertical offset `y` and
the drawing operations emitted so far. -/
structure RState where
  y : ℚ
  ops : List DrawOp
deriving DecidableEq

/-- The external environment of `build_pdf`: the page geometry and the
canvas text-measurement capability `c.stringWidth(text, font, size)`. -/
structure Env where
  height : ℚ
  width : ℚ
  sw : String → String → ℚ → ℚ

/-- `x_margin` in `build_pdf`. -/
def x_margin : ℚ := 50

/-- The default `min_y` threshold of `new_page_if_needed`. -/
def min_y : ℚ := 70

/-- `known_labels` in `build_pdf`. -/
def known_labels : List String :=
  ["Position", "Abteilung", "Mobil", "Zentrale", "Geschäftlich", "Privat",
   "Adresse", "Homepage", "Website", "Facebook", "XING", "LinkedIn",
   "Instagram", "Twitter"]

/-- `global_label_width`: the maximum rendered width of the candidate
labels (suffixed with a colon) in the bold label font. -/
def global_label_width (E : Env) : ℚ :=
  known_labels.foldl (fun acc lbl => max acc (E.sw (lbl ++ ":") "Helvetica-Bold" 11)) 0

/-- `value_x`: the shared left edge of the value column. -/
def value_x (E : Env) : ℚ :=
  x_margin + global_label_width E + 6

/-- `new_page_if_needed`: if the current offset is below `min_y`, emit a
`showPage` and reset the offset to the top margin (`height - 60`). -/
def new_page_if_needed (E : Env) (st : RState) : RState :=
  if st.y < min_y then ⟨E.height - 60, st.ops ++ [DrawOp.page]⟩ else st

/-- `draw_heading`: page check, bold 13pt text at the left margin, then
advance the offset by 14. -/
def draw_heading (E : Env) (t : String) (st : RState) : RState :=
  let st1 := new_page_if_needed E st
  ⟨st1.y - 14, st1.ops ++ [DrawOp.text "Helvetica-Bold" 13 x_margin st1.y t]⟩

/-- The body of the `draw_lines` loop for one line: page check, draw the
line at the left margin, advance by `leading`. -/
def draw_line_step (E : Env) (font : String) (size leading : ℚ) (st : RState)
    (line : String) : RState :=
  let st1 := new_page_if_needed E st
  ⟨st1.y - leading, st1.ops ++ [DrawOp.text font size x_margin st1.y line]⟩

/-- `draw_lines`: nothing for falsy text, otherwise one row per
newline-separated line. -/
def draw_lines (E : Env) (font : String) (size leading : ℚ) (t : String)
    (st : RState) : RState :=
  if t == "" then st
  else (pySplitChar '\n' t).foldl (draw_line_step E font size leading) st

/-- `add_spacing`: advance the offset without drawing. -/
def add_spacing (amount : ℚ) (st : RState) : RState :=
  ⟨st.y - amount, st.ops⟩

/-- The loop of `draw_label_paragraph`: each line is page-checked and drawn
at the value column; the label is drawn only next to the first line. -/
def dlpAux (E : Env) (label_text : String) (leading : ℚ) :
    Bool → List String → RState → RState
  | _, [], st => st
  | first, line :: rest, st =>
    let st1 := new_page_if_needed E st
    let labelOps :=
      if first then [DrawOp.text "Helvetica-Bold" 11 x_margin st1.y label_text] else []
    dlpAux E label_text leading false rest
      ⟨st1.y - leading,
       st1.ops ++ labelOps ++ [DrawOp.text "Helvetica" 11 (value_x E) st1.y line]⟩

/-- `draw_label_paragraph`: nothing for an empty line list, otherwise a
page check followed by the per-line loop. -/
def draw_label_paragraph (E : Env) (label : String) (lines : List String)
    (leading : ℚ) (st : RState) : RState :=
  if lines.isEmpty then st
  else dlpAux E (label ++ ":") leading true lines (new_page_if_needed E st)

/-- `build_social_url`: handles already carrying an `http(s)://` or `www.`
prefix short-circuit before the per-network base URLs are consulted;
otherwise a known network contributes its base URL and anything else
yields no URL. -/
def build_social_url (network : String) (handle : String) : Option String :=
  let h := pyStrip handle
  if h == "" then none
  else if pyStartsWith (pyLower h) "http://" || pyStartsWith (pyLower h) "https://" then
    some h
  else if pyStartsWith (pyLower h) "www." then some ("https://" ++ h)
  else if network = "FACEBOOK" then some ("https://www.facebook.com/" ++ h)
  else if network = "XING" then some ("https://www.xing.com/profile/" ++ h)
  else if network = "LINKEDIN" then some ("https://www.linkedin.com/in/" ++ h)
  else if network = "INSTAGRAM" then some ("https://www.instagram.com/" ++ h)
  else if network = "TWITTER" then some ("https://twitter.com/" ++ h)
  else none

/-- Substring containment (Python `pat in t`). -/
def containsSub (s pat : String) : Bool :=
  (List.range (s.data.length + 1)).any (fun i => pat.data.isPrefixOf (s.data.drop i))

/-- `classify_from_params`: map the uppercased parameter tokens of an entry
to its classification outcome, per field kind. -/
def classify_from_params (params : List String) (kind : String) : String :=
  let tokens := params.map pyUpper
  if kind = "TEL" then
    if tokens.any (fun t => t == "CELL" || t == "MOBILE" || t == "IPHONE") then "MOBILE"
    else if tokens.any (fun t => t == "MAIN" || t == "WORK" || t == "BUSINESS") then "WORK"
    else if tokens.any (fun t => t == "HOME" || t == "PRIVATE") then "HOME"
    else "OTHER"
  else if kind = "EMAIL" ∨ kind = "ADR" ∨ kind = "URL" then
    if tokens.any (fun t => t == "WORK" || t == "BUSINESS") then "WORK"
    else if tokens.any (fun t => t == "HOME" || t == "PRIVATE") then "HOME"
    else "OTHER"
  else if kind = "SOCIAL" then
    if tokens.any (fun t => containsSub t "FACEBOOK") then "FACEBOOK"
    else if tokens.any (fun t => containsSub t "XING") then "XING"
    else if tokens.any (fun t => containsSub t "LINKEDIN") then "LINKEDIN"
    else if tokens.any (fun t => containsSub t "INSTAGRAM") then "INSTAGRAM"
    else if tokens.any (fun t => containsSub t "TWITTER") then "TWITTER"
    else "OTHER"
  else "OTHER"

/-- The phone-labelling loop of the TEL section: a stateful `seen_work`
flag distinguishes the first WORK phone ("Zentrale") from later ones
("Geschäftlich"). -/
def telEntriesGo : Bool → List AnnotatedValue → List (Option String × String)
  | _, [] => []
  | seen, e :: rest =>
    let kind := classify_from_params e.params "TEL"
    if kind = "MOBILE" then (some "Mobil", e.value) :: telEntriesGo seen rest
    else if kind = "WORK" then
      if seen then (some "Geschäftlich", e.value) :: telEntriesGo seen rest
      else (some "Zentrale", e.value) :: telEntriesGo true rest
    else if kind = "HOME" then (some "Privat", e.value) :: telEntriesGo seen rest
    else (none, e.value) :: telEntriesGo seen rest

/-- The labelled phone entries, with the `seen_work` flag starting false. -/
def telEntries (tels : List AnnotatedValue) : List (Option String × String) :=
  telEntriesGo false tels

/-- The row-drawing loop body shared by the TEL and EMAIL sections: a
labelled entry draws the label at the left margin and the value at the
value column; an unlabelled entry draws the value at the left margin. -/
def draw_entry_row (E : Env) (st : RState) (p : Option String × String) : RState :=
  let st1 := new_page_if_needed E st
  match p.1 with
  | some lbl =>
    ⟨st1.y - 14,
     st1.ops ++ [DrawOp.text "Helvetica-Bold" 11 x_margin st1.y (lbl ++ ":"),
                 DrawOp.text "Helvetica" 11 (value_x E) st1.y p.2]⟩
  | none =>
    ⟨st1.y - 14, st1.ops ++ [DrawOp.text "Helvetica" 11 x_margin st1.y p.2]⟩

/-- The TEL section of `build_pdf`. -/
def telSection (E : Env) (tels : List AnnotatedValue) (st : RState) : RState :=
  if tels.isEmpty then st
  else
    let st1 := draw_heading E "Telefon" st
    let st2 := (telEntries tels).foldl (draw_entry_row E) st1
    add_spacing 24 st2

/-- The per-entry labels of the EMAIL section. -/
def emailEntries (emails : List AnnotatedValue) : List (Option String × String) :=
  emails.map (fun e =>
    let kind := classify_from_params e.params "EMAIL"
    (if kind = "WORK" then some "Geschäftlich"
     else if kind = "HOME" then some "Privat"
     else none, e.value))

/-- The EMAIL section of `build_pdf`. -/
def emailSection (E : Env) (emails : List AnnotatedValue) (st : RState) : RState :=
  if emails.isEmpty then st
  else
    let st1 := draw_heading E (if emails.length = 1 then "E-Mail" else "E-Mail(s)") st
    let st2 := (emailEntries emails).foldl (draw_entry_row E) st1
    add_spacing 24 st2

/-- The display lines of one address entry: component 2 of the 0-indexed
semicolon split is the street, and components 5 and 3 joined by a space
(then stripped) form the "postal city" line; empty lines are dropped. -/
def adrLines (v : String) : List String :=
  let parts := pySplitChar ';' v
  let street := parts.getD 2 ""
  let city := parts.getD 3 ""
  let postal := parts.getD 5 ""
  let line1 := pyStrip street
  let line2 := pyStrip (pyStrip postal ++ " " ++ pyStrip city)
  (if line1 ≠ "" then [line1] else []) ++ (if line2 ≠ "" then [line2] else [])

/-- The label of one address entry (addresses fall back to "Adresse"). -/
def adrLabel (params : List String) : String :=
  let kind := classify_from_params params "ADR"
  if kind = "WORK" then "Geschäftlich"
  else if kind = "HOME" then "Privat"
  else "Adresse"

/-- The ADR-section loop body for one address entry: the label paragraph is
drawn only when the entry yields at least one display line; the 6-unit gap
follows either way. -/
def adrEntryStep (E : Env) (st : RState) (e : AnnotatedValue) : RState :=
  let lines := adrLines e.value
  let st1 := if lines.isEmpty then st else draw_label_paragraph E (adrLabel e.params) lines 14 st
  add_spacing 6 st1

/-- The ADR section of `build_pdf`. -/
def adrSection (E : Env) (adrs : List AnnotatedValue) (st : RState) : RState :=
  if adrs.isEmpty then st
  else
    let st1 := draw_heading E (if adrs.length = 1 then "Adresse" else "Adressen") st
    let st2 := adrs.foldl (adrEntryStep E) st1
    add_spacing 24 st2

/-- The per-entry labels of the URL section (before the fallback label). -/
def urlEntries (urls : List AnnotatedValue) : List (Option String × String) :=
  urls.map (fun e =>
    let kind := classify_from_params e.params "URL"
    (if kind = "WORK" then some "Geschäftlich"
     else if kind = "HOME" then some "Privat"
     else none, e.value))

/-- The URL-section row: an entry without a classified label falls back to
"Homepage" when it is the only URL, else "Website"; a label is always
drawn. -/
def urlRow (E : Env) (single : Bool) (st : RState) (p : Option String × String) : RState :=
  let st1 := new_page_if_needed E st
  let eff := p.1.getD (if single then "Homepage" else "Website")
  ⟨st1.y - 14,
   st1.ops ++ [DrawOp.text "Helvetica-Bold" 11 x_margin st1.y (eff ++ ":"),
               DrawOp.text "Helvetica" 11 (value_x E) st1.y p.2]⟩

/-- The URL section of `build_pdf`. -/
def urlSection (E : Env) (urls : List AnnotatedValue) (st : RState) : RState :=
  if urls.isEmpty then st
  else
    let st1 := draw_heading E (if urls.length = 1 then "Website" else "Website(s)") st
    let entries := urlEntries urls
    let st2 := entries.foldl (urlRow E (entries.length == 1)) st1
    add_spacing 24 st2

/-- The handle of a social entry: the text after the last colon of the raw
value (`value.split(":")[-1]`). -/
def socialHandle (v : String) : String :=
  (pySplitChar ':' v).getLastD ""

/-- The display label of a classified social network. -/
def socialLabel (network : String) : Option String :=
  if network = "FACEBOOK" then some "Facebook"
  else if network = "XING" then some "XING"
  else if network = "LINKEDIN" then some "LinkedIn"
  else if network = "INSTAGRAM" then some "Instagram"
  else if network = "TWITTER" then some "Twitter"
  else none

/-- The SOCIAL-section loop body for one entry: bullet at the left margin,
optional network label after the bullet, handle at the value column, and a
clickable region over the handle whenever `build_social_url` yields a URL. -/
def socialRow (E : Env) (st : RState) (e : AnnotatedValue) : RState :=
  let network := classify_from_params e.params "SOCIAL"
  let handle := socialHandle e.value
  let st1 := new_page_if_needed E st
  let bulletW := E.sw "• " "Helvetica" 11
  let labelOps :=
    match socialLabel network with
    | some l => [DrawOp.text "Helvetica-Bold" 11 (x_margin + bulletW) st1.y (l ++ ":")]
    | none => []
  let baseOps :=
    [DrawOp.text "Helvetica" 11 x_margin st1.y "• "] ++ labelOps ++
      [DrawOp.text "Helvetica" 11 (value_x E) st1.y handle]
  let linkOps :=
    match build_social_url network handle with
    | some url =>
      [DrawOp.link url (value_x E) (st1.y - 2) (value_x E + E.sw handle "Helvetica" 11) (st1.y + 10)]
    | none => []
  ⟨st1.y - 14, st1.ops ++ baseOps ++ linkOps⟩

/-- The SOCIAL section of `build_pdf`. -/
def socialSection (E : Env) (socials : List AnnotatedValue) (st : RState) : RState :=
  if socials.isEmpty then st
  else
    let st1 := draw_heading E "Social Media" st
    let st2 := socials.foldl (socialRow E) st1
    add_spacing 24 st2

/-- The NOTE section of `build_pdf`. -/
def notesSection (E : Env) (notes : List String) (st : RState) : RState :=
  if notes.isEmpty then st
  else
    let st1 := add_spacing 24 st
    let st2 := draw_heading E "Notizen" st1
    notes.foldl (fun s n => draw_lines E "Helvetica" 11 14 n s) st2

/-- The content part of `build_pdf` after the title: organization block,
Position/Abteilung rows, and the six entry sections. -/
def renderBody (E : Env) (vc : VCardData) (st : RState) : RState :=
  let st1 := if falsy vc.ORG then st else draw_lines E "Helvetica" 12 14 (vc.ORG.getD "") st
  let st2 := if falsy vc.TITLE && falsy vc.DEPT then st1 else add_spacing 14 st1
  let st3 := if falsy vc.TITLE then st2
             else draw_label_paragraph E "Position" [vc.TITLE.getD ""] 14 st2
  let st4 := if falsy vc.DEPT then st3
             else draw_label_paragraph E "Abteilung" [vc.DEPT.getD ""] 14 st3
  let st5 := add_spacing 24 st4
  let st6 := telSection E vc.TEL st5
  let st7 := emailSection E vc.EMAIL st6
  let st8 := adrSection E vc.ADR st7
  let st9 := urlSection E vc.URL st8
  let st10 := socialSection E vc.SOCIAL st9
  notesSection E vc.NOTE st10

/-- The renderer state right after the title row of `build_pdf` (drawn at
the top margin in bold 20pt; the parsed full name, or the source name when
the name is falsy). -/
def titleInit (E : Env) (vc : VCardData) (source_name : String) : RState :=
  let title := if falsy vc.FN then source_name else vc.FN.getD ""
  ⟨E.height - 60 - 14, [DrawOp.text "Helvetica-Bold" 20 x_margin (E.height - 60) title]⟩

/-- All content drawing of `build_pdf`: the title row followed by the body
sections.  (The photo placement is a collaborator capability — image
decoding and `drawImage` — and emits no text rows; it is not modelled.) -/
def contentState (E : Env) (vc : VCardData) (source_name : String) : RState :=
  renderBody E vc (titleInit E vc source_name)

/-- The footer of `build_pdf`: generator credit, copyright line with the
current year, and the optional right-aligned metadata line. -/
def footerOps (E : Env) (vc : VCardData) (year : ℕ) : List DrawOp :=
  let base :=
    [DrawOp.text "Helvetica" 8 x_margin 40 "Generiert durch vCard2PDF v1.0",
     DrawOp.text "Helvetica" 8 x_margin 30 ("© Fieber IT 2014 - " ++ toString year)]
  let meta :=
    (if falsy vc.VERSION then [] else ["vCard-Version " ++ vc.VERSION.getD ""]) ++
      (if falsy vc.PRODID then [] else ["PRODID " ++ vc.PRODID.getD ""])
  base ++
    (if meta.isEmpty then []
     else [DrawOp.rtext "Helvetica" 8 (E.width - x_margin) 30 (String.intercalate " · " meta)])

/-- `build_pdf`: the full sequence of drawing operations for one record. -/
def build_pdf (E : Env) (vc : VCardData) (source_name : String) (year : ℕ) : List DrawOp :=
  (contentState E vc source_name).ops ++ footerOps E vc year

/-- The per-file driver loop of `main`, restricted to the rendering it
performs: each record is converted by a fresh `build_pdf` invocation. -/
def processRecords (E : Env) (rs : List (VCardData × String)) (year : ℕ) :
    List (List DrawOp) :=
  rs.map (fun r => build_pdf E r.1 r.2 year)

/-- A concrete environment for evaluating the renderer on examples. -/
def env0 : Env := ⟨842, 595, fun _ _ _ => 10⟩

/-- A concrete mid-page renderer state. -/
def st0 : RState := ⟨700, []⟩

/-- Link-operation recognizer. -/
def isLink : DrawOp → Bool
  | DrawOp.link _ _ _ _ _ => true
  | _ => false

example :
    (telEntries [⟨"+1", ["WORK"]⟩, ⟨"+2", ["WORK"]⟩, ⟨"+3", ["CELL"]⟩,
      ⟨"+4", ["HOME"]⟩]).map Prod.fst =
      [some "Zentrale", some "Geschäftlich", some "Mobil", some "Privat"] := by decide

example : adrLines ";;Main St;Springfield;;12345" = ["Main St", "12345 Springfield"] := by
  decide

example : build_social_url "XING" "jdoe" = some "https://www.xing.com/profile/jdoe" := by decide
example : build_social_url "OTHER" "www.example.com" = some "https://www.example.com" := by decide
example : classify_from_params [] "SOCIAL" = "OTHER" := by decide
example : (socialRow env0 st0 ⟨"www.example.com", []⟩).ops.filter isLink ≠ [] := by decide
example : (socialRow env0 st0 ⟨"x:https://example.com/me", []⟩).ops.filter isLink = [] := by decide

/-! ## Parser lemmas -/

/-- String concatenation acts as list concatenation on the character data. -/
theorem strData_append (s t : String) : (s ++ t).data = s.data ++ t.data := rfl

/-- `processLine` on an `FN` logical line. -/
theorem processLine_fn (dec : String → Option (List Nat)) (d : VCardData) (v : String) :
    processLine dec d ("FN:" ++ v) =
      (if falsy d.FN then { d with FN := some (pyStrip v) } else d) := rfl

/-- `processLine` on a `TITLE` logical line. -/
theorem processLine_title (dec : String → Option (List Nat)) (d : VCardData) (v : String) :
    processLine dec d ("TITLE:" ++ v) =
      (if falsy d.TITLE then { d with TITLE := some (pyStrip v) } else d) := rfl

/-- `processLine` on a `PHOTO` logical line: the decoder result overwrites
the payload on success and leaves it untouched on failure. -/
theorem processLine_photo (dec : String → Option (List Nat)) (d : VCardData) (v : String) :
    processLine dec d ("PHOTO:" ++ v) =
      (match dec (pyStrip v) with
       | some p => { d with PHOTO := some p }
       | none => d) := rfl

/-- `processLine` on an `ORG` logical line. -/
theorem processLine_org (dec : String → Option (List Nat)) (d : VCardData) (v : String) :
    processLine dec d ("ORG:" ++ v) =
      (if falsy d.ORG then
        (let parts := pySplitChar ';' (pyRStripChar ';' (pyStrip v))
         let d1 := { d with ORG := some (parts.headD "") }
         if 1 < parts.length ∧ pyStrip (parts.getD 1 "") ≠ "" then
           { d1 with DEPT := some (pyStrip (parts.getD 1 "")) }
         else d1)
       else d) := rfl

/-- `dispatch` never overwrites a truthy fn field. -/
theorem dispatch_keeps_FN (dec : String → Option (List Nat)) (d : VCardData)
    (key : String) (params : List String) (value : String)
    (h : falsy d.FN = false) :
    (dispatch dec d key params value).FN = d.FN := by
  unfold dispatch
  by_cases hk1 : key = "FN"
  · rw [if_pos hk1, if_neg (by rw [h]; exact Bool.false_ne_true)]
  · rw [if_neg hk1]
    by_cases hk2 : key = "ORG"
    · rw [if_pos hk2]
      by_cases hog : falsy d.ORG = true
      · rw [if_pos hog]
        dsimp only
        split <;> rfl
      · rw [if_neg hog]
    · rw [if_neg hk2]
      by_cases hk3 : key = "TITLE"
      · rw [if_pos hk3]
        split <;> rfl
      · rw [if_neg hk3]
        by_cases hk4 : key = "TEL"
        · rw [if_pos hk4]
        · rw [if_neg hk4]
          by_cases hk5 : key = "EMAIL"
          · rw [if_pos hk5]
          · rw [if_neg hk5]
            by_cases hk6 : key = "ADR"
            · rw [if_pos hk6]
            · rw [if_neg hk6]
              by_cases hk7 : key = "URL" ∨ pyEndsWith key ".URL" = true
              · rw [if_pos hk7]
              · rw [if_neg hk7]
                by_cases hk8 : key = "NOTE"
                · rw [if_pos hk8]
                · rw [if_neg hk8]
                  by_cases hk9 : key = "X-SOCIALPROFILE"
                  · rw [if_pos hk9]
                  · rw [if_neg hk9]
                    by_cases hk10 : key = "PHOTO"
                    · rw [if_pos hk10]
                      split <;> rfl
                    · rw [if_neg hk10]
                      by_cases hk11 : key = "VERSION"
                      · rw [if_pos hk11]
                      · rw [if_neg hk11]
                        by_cases hk12 : key = "PRODID"
                        · rw [if_pos hk12]
                        · rw [if_neg hk12]

/-- `dispatch` never overwrites a truthy org field. -/
theorem dispatch_keeps_ORG (dec : String → Option (List Nat)) (d : VCardData)
    (key : String) (params : List String) (value : String)
    (h : falsy d.ORG = false) :
    (dispatch dec d key params value).ORG = d.ORG := by
  unfold dispatch
  by_cases hk1 : key = "FN"
  · rw [if_pos hk1]
    split <;> rfl
  · rw [if_neg hk1]
    by_cases hk2 : key = "ORG"
    · rw [if_pos hk2, if_neg (by rw [h]; exact Bool.false_ne_true)]
    · rw [if_neg hk2]
      by_cases hk3 : key = "TITLE"
      · rw [if_pos hk3]
        split <;> rfl
      · rw [if_neg hk3]
        by_cases hk4 : key = "TEL"
        · rw [if_pos hk4]
        · rw [if_neg hk4]
          by_cases hk5 : key = "EMAIL"
          · rw [if_pos hk5]
          · rw [if_neg hk5]
            by_cases hk6 : key = "ADR"
            · rw [if_pos hk6]
            · rw [if_neg hk6]
              by_cases hk7 : key = "URL" ∨ pyEndsWith key ".URL" = true
              · rw [if_pos hk7]
              · rw [if_neg hk7]
                by_cases hk8 : key = "NOTE"
                · rw [if_pos hk8]
                · rw [if_neg hk8]
                  by_cases hk9 : key = "X-SOCIALPROFILE"
                  · rw [if_pos hk9]
                  · rw [if_neg hk9]
                    by_cases hk10 : key = "PHOTO"
                    · rw [if_pos hk10]
                      split <;> rfl
                    · rw [if_neg hk10]
                      by_cases hk11 : key = "VERSION"
                      · rw [if_pos hk11]
                      · rw [if_neg hk11]
                        by_cases hk12 : key = "PRODID"
                        · rw [if_pos hk12]
                        · rw [if_neg hk12]

/-- `dispatch` never overwrites a truthy title field. -/
theorem dispatch_keeps_TITLE (dec : String → Option (List Nat)) (d : VCardData)
    (key : String) (params : List String) (value : String)
    (h : falsy d.TITLE = false) :
    (dispatch dec d key params value).TITLE = d.TITLE := by
  unfold dispatch
  by_cases hk1 : key = "FN"
  · rw [if_pos hk1]
    split <;> rfl
  · rw [if_neg hk1]
    by_cases hk2 : key = "ORG"
    · rw [if_pos hk2]
      by_cases hog : falsy d.ORG = true
      · rw [if_pos hog]
        dsimp only
        split <;> rfl
      · rw [if_neg hog]
    · rw [if_neg hk2]
      by_cases hk3 : key = "TITLE"
      · rw [if_pos hk3, if_neg (by rw [h]; exact Bool.false_ne_true)]
      · rw [if_neg hk3]
        by_cases hk4 : key = "TEL"
        · rw [if_pos hk4]
        · rw [if_neg hk4]
          by_cases hk5 : key = "EMAIL"
          · rw [if_pos hk5]
          · rw [if_neg hk5]
            by_cases hk6 : key = "ADR"
            · rw [if_pos hk6]
            · rw [if_neg hk6]
              by_cases hk7 : key = "URL" ∨ pyEndsWith key ".URL" = true
              · rw [if_pos hk7]
              · rw [if_neg hk7]
                by_cases hk8 : key = "NOTE"
                · rw [if_pos hk8]
                · rw [if_neg hk8]
                  by_cases hk9 : key = "X-SOCIALPROFILE"
                  · rw [if_pos hk9]
                  · rw [if_neg hk9]
                    by_cases hk10 : key = "PHOTO"
                    · rw [if_pos hk10]
                      split <;> rfl
                    · rw [if_neg hk10]
                      by_cases hk11 : key = "VERSION"
                      · rw [if_pos hk11]
                      · rw [if_neg hk11]
                        by_cases hk12 : key = "PRODID"
                        · rw [if_pos hk12]
                        · rw [if_neg hk12]

/-- Once the name field is truthy, no later line changes it. -/
theorem processLine_keeps_FN (dec : String → Option (List Nat)) (d : VCardData)
    (l : String) (h : falsy d.FN = false) : (processLine dec d l).FN = d.FN := by
  unfold processLine
  by_cases hc : strContains l ':' = false
  · rw [if_pos hc]
  · rw [if_neg hc]
    exact dispatch_keeps_FN dec d _ _ _ h

/-- Once the organization field is truthy, no later line changes it. -/
theorem processLine_keeps_ORG (dec : String → Option (List Nat)) (d : VCardData)
    (l : String) (h : falsy d.ORG = false) : (processLine dec d l).ORG = d.ORG := by
  unfold processLine
  by_cases hc : strContains l ':' = false
  · rw [if_pos hc]
  · rw [if_neg hc]
    exact dispatch_keeps_ORG dec d _ _ _ h

/-- Once the title field is truthy, no later line changes it. -/
theorem processLine_keeps_TITLE (dec : String → Option (List Nat)) (d : VCardData)
    (l : String) (h : falsy d.TITLE = false) : (processLine dec d l).TITLE = d.TITLE := by
  unfold processLine
  by_cases hc : strContains l ':' = false
  · rw [if_pos hc]
  · rw [if_neg hc]
    exact dispatch_keeps_TITLE dec d _ _ _ h

/-- Lifting of `processLine_keeps_FN` to whole line lists. -/
theorem processLines_keeps_FN (dec : String → Option (List Nat)) :
    ∀ (ls : List String) (d : VCardData), falsy d.FN = false →
      (processLines dec ls d).FN = d.FN
  | [], _, _ => rfl
  | l :: ls, d, h => by
    have h1 := processLine_keeps_FN dec d l h
    have h2 : falsy (processLine dec d l).FN = false := by rw [h1]; exact h
    calc (processLines dec (l :: ls) d).FN
        = (processLines dec ls (processLine dec d l)).FN := rfl
      _ = (processLine dec d l).FN := processLines_keeps_FN dec ls _ h2
      _ = d.FN := h1

/-- Lifting of `processLine_keeps_ORG` to whole line lists. -/
theorem processLines_keeps_ORG (dec : String → Option (List Nat)) :
    ∀ (ls : List String) (d : VCardData), falsy d.ORG = false →
      (processLines dec ls d).ORG = d.ORG
  | [], _, _ => rfl
  | l :: ls, d, h => by
    have h1 := processLine_keeps_ORG dec d l h
    have h2 : falsy (processLine dec d l).ORG = false := by rw [h1]; exact h
    calc (processLines dec (l :: ls) d).ORG
        = (processLines dec ls (processLine dec d l)).ORG := rfl
      _ = (processLine dec d l).ORG := processLines_keeps_ORG dec ls _ h2
      _ = d.ORG := h1

/-- Lifting of `processLine_keeps_TITLE` to whole line lists. -/
theorem processLines_keeps_TITLE (dec : String → Option (List Nat)) :
    ∀ (ls : List String) (d : VCardData), falsy d.TITLE = false →
      (processLines dec ls d).TITLE = d.TITLE
  | [], _, _ => rfl
  | l :: ls, d, h => by
    have h1 := processLine_keeps_TITLE dec d l h
    have h2 : falsy (processLine dec d l).TITLE = false := by rw [h1]; exact h
    calc (processLines dec (l :: ls) d).TITLE
        = (processLines dec ls (processLine dec d l)).TITLE := rfl
      _ = (processLine dec d l).TITLE := processLines_keeps_TITLE dec ls _ h2
      _ = d.TITLE := h1

/-- Unfolding equation of `processLines` on a leading line. -/
theorem processLines_cons (dec : String → Option (List Nat)) (l : String)
    (ls : List String) (d : VCardData) :
    processLines dec (l :: ls) d = processLines dec ls (processLine dec d l) := rfl

/-- A blank physical line leaves the unfolding accumulator unchanged. -/
theorem unfoldStep_blank (acc : List String) (b : String) (hb : pyStrip b = "") :
    unfoldStep acc b = acc := by
  unfold unfoldStep
  rw [if_pos (by simp [hb])]

/-- Unfolding over a run of blank lines is the identity. -/
theorem foldl_unfoldStep_blanks : ∀ (bs : List String) (acc : List String),
    (∀ b ∈ bs, pyStrip b = "") → List.foldl unfoldStep acc bs = acc
  | [], _, _ => rfl
  | b :: bs, acc, hb => by
    rw [show List.foldl unfoldStep acc (b :: bs) =
        List.foldl unfoldStep (unfoldStep acc b) bs from rfl]
    rw [unfoldStep_blank acc b (hb b (by simp))]
    exact foldl_unfoldStep_blanks bs acc (fun x hx => hb x (by simp [hx]))

/-- One unfolding step keeps the accumulator non-empty and keeps any prefix
of the first logical line's text (continuation lines only ever extend the
last logical line, and the last line is the first only when it is the sole
line, in which case text is appended at its end). -/
theorem unfoldStep_keeps (p : List Char) (acc : List String) (x : String)
    (hne : acc ≠ []) (hp : p <+: (acc.headD "").data) :
    unfoldStep acc x ≠ [] ∧ p <+: ((unfoldStep acc x).headD "").data := by
  unfold unfoldStep
  split
  · exact ⟨hne, hp⟩
  · split
    · constructor
      · simp
      · rcases acc with _ | ⟨a, t⟩
        · exact absurd rfl hne
        · rcases t with _ | ⟨b, t2⟩
          · exact hp.trans (List.prefix_append _ _)
          · exact hp
    · constructor
      · rcases acc with _ | ⟨a, t⟩
        · simp
        · simp
      · rcases acc with _ | ⟨a, t⟩
        · exact absurd rfl hne
        · exact hp

/-- Lifting of `unfoldStep_keeps` over the remaining physical lines. -/
theorem foldl_unfoldStep_keeps (p : List Char) :
    ∀ (ls : List String) (acc : List String), acc ≠ [] → p <+: (acc.headD "").data →
      List.foldl unfoldStep acc ls ≠ [] ∧
        p <+: ((List.foldl unfoldStep acc ls).headD "").data
  | [], _, hne, hp => ⟨hne, hp⟩
  | x :: ls, acc, hne, hp => by
    have h := unfoldStep_keeps p acc x hne hp
    exact foldl_unfoldStep_keeps p ls (unfoldStep acc x) h.1 h.2

/-- C2 (counterexample): an input whose first non-blank physical line
begins with a space is NOT discarded during unfolding — the line survives
as a logical line of its own. -/
theorem C2_counterexample :
    unfoldLines (splitLines " X:1") = [" X:1"] ∧
      " X:1" ∈ unfoldLines (splitLines " X:1") := by
  decide

/-- C2 (amended): during unfolding, a first non-blank physical line that
begins with a space or tab (a continuation line with no prior logical
line) is kept, not discarded: the unfolded output is non-empty and its
first logical line starts with that physical line's text (possibly
extended by following continuation lines). -/
theorem C2_continuation_first_line (bs : List String) (l : String) (ls : List String)
    (hb : ∀ b ∈ bs, pyStrip b = "") (hl : pyStrip l ≠ "")
    (_hw : l.data.headD 'x' = ' ' ∨ l.data.headD 'x' = '\t') :
    unfoldLines (bs ++ l :: ls) ≠ [] ∧
      (pyRStripChar '\n' l).data <+: ((unfoldLines (bs ++ l :: ls)).headD "").data := by
  unfold unfoldLines
  rw [List.foldl_append]
  rw [foldl_unfoldStep_blanks bs [] hb]
  have h1 : unfoldStep [] l = [pyRStripChar '\n' l] := by
    unfold unfoldStep
    rw [if_neg (by simpa using hl)]
    rw [if_neg (by simp)]
    rfl
  rw [show List.foldl unfoldStep [] (l :: ls) =
      List.foldl unfoldStep (unfoldStep [] l) ls from rfl, h1]
  exact foldl_unfoldStep_keeps _ ls _ (by simp) (List.prefix_refl _)

/-- Witness for `C2_continuation_first_line` at a concrete input. -/
theorem C2_witness :
    pyStrip " X:1" ≠ "" ∧ unfoldLines ([] ++ " X:1" :: []) ≠ [] :=
  ⟨by decide,
   (C2_continuation_first_line [] " X:1" [] (by simp) (by decide) (Or.inl rfl)).1⟩

/-- C3 (counterexample): with two FN lines of different values where the
first value is empty, the record's name is the second value, not the
first. -/
theorem C3_counterexample :
    (parse_vcard decNone "FN:\nFN:Bob").FN = some "Bob" ∧
      some "Bob" ≠ some ("" : String) := by
  decide

/-- C3 (amended): first-occurrence-wins holds for the name, organization
and title fields provided the first occurrence stores a non-empty value:
once non-empty, the field is never overwritten by any later line; with an
empty first value the gate stays open (see C10). -/
theorem C3_first_occurrence :
    (∀ (dec : String → Option (List Nat)) (v1 v2 : String) (rest : List String),
       pyStrip v1 ≠ "" →
       (processLines dec (("FN:" ++ v1) :: ("FN:" ++ v2) :: rest) emptyVCard).FN =
         some (pyStrip v1)) ∧
    (∀ (dec : String → Option (List Nat)) (v1 v2 : String) (rest : List String),
       pyStrip v1 ≠ "" →
       (processLines dec (("TITLE:" ++ v1) :: ("TITLE:" ++ v2) :: rest) emptyVCard).TITLE =
         some (pyStrip v1)) ∧
    (∀ (dec : String → Option (List Nat)) (v1 v2 : String) (rest : List String),
       (pySplitChar ';' (pyRStripChar ';' (pyStrip v1))).headD "" ≠ "" →
       (processLines dec (("ORG:" ++ v1) :: ("ORG:" ++ v2) :: rest) emptyVCard).ORG =
         some ((pySplitChar ';' (pyRStripChar ';' (pyStrip v1))).headD "")) ∧
    (parse_vcard decNone "FN:Alice\nFN:Bob").FN = some "Alice" := by
  refine ⟨?_, ?_, ?_, by decide⟩
  · intro dec v1 v2 rest h
    have h0 : processLine dec emptyVCard ("FN:" ++ v1) =
        { emptyVCard with FN := some (pyStrip v1) } := by
      rw [processLine_fn]
      rfl
    rw [processLines_cons, h0]
    rw [processLines_keeps_FN dec _ _ (by simp [falsy, h])]

  · intro dec v1 v2 rest h
    have h0 : processLine dec emptyVCard ("TITLE:" ++ v1) =
        { emptyVCard with TITLE := some (pyStrip v1) } := by
      rw [processLine_title]
      rfl
    rw [processLines_cons, h0]
    rw [processLines_keeps_TITLE dec _ _ (by simp [falsy, h])]
  · intro dec v1 v2 rest h
    rw [processLines_cons]
    rw [processLine_org]
    rw [if_pos (show falsy emptyVCard.ORG = true from rfl)]
    set parts := pySplitChar ';' (pyRStripChar ';' (pyStrip v1)) with hparts
    by_cases hdep : 1 < parts.length ∧ pyStrip (parts.getD 1 "") ≠ ""
    · rw [if_pos hdep]
      rw [processLines_keeps_ORG dec _ _ (by simpa [falsy, List.headD_eq_head?] using h)]
    · rw [if_neg hdep]
      rw [processLines_keeps_ORG dec _ _ (by simpa [falsy, List.headD_eq_head?] using h)]

/-- Witness for `C3_first_occurrence` at a concrete input. -/
theorem C3_witness :
    pyStrip "Alice" ≠ "" ∧
      (processLines decNone (("FN:" ++ "Alice") :: ("FN:" ++ "Bob") :: []) emptyVCard).FN =
        some (pyStrip "Alice") :=
  ⟨by decide, C3_first_occurrence.1 decNone "Alice" "Bob" [] (by decide)⟩

/-- C10: the first-occurrence gate for name, organization and title tests
emptiness, not presence: a stored empty value leaves the gate open, so a
later line of the same key sets the field. -/
theorem C10_empty_first_gate :
    (∀ (dec : String → Option (List Nat)) (d : VCardData) (v : String),
       d.FN = some "" → (processLine dec d ("FN:" ++ v)).FN = some (pyStrip v)) ∧
    (∀ (dec : String → Option (List Nat)) (d : VCardData) (v : String),
       d.TITLE = some "" → (processLine dec d ("TITLE:" ++ v)).TITLE = some (pyStrip v)) ∧
    (∀ (dec : String → Option (List Nat)) (d : VCardData) (v : String),
       d.ORG = some "" →
         (processLine dec d ("ORG:" ++ v)).ORG =
           some ((pySplitChar ';' (pyRStripChar ';' (pyStrip v))).headD "")) ∧
    (parse_vcard decNone "FN:\nFN:Bob").FN = some "Bob" ∧
    (parse_vcard decNone "ORG:\nORG:Acme;Sales").ORG = some "Acme" ∧
    (parse_vcard decNone "TITLE:\nTITLE:Boss").TITLE = some "Boss" := by
  refine ⟨?_, ?_, ?_, by decide, by decide, by decide⟩
  · intro dec d v h
    rw [processLine_fn, if_pos (by simp [falsy, h])]
  · intro dec d v h
    rw [processLine_title, if_pos (by simp [falsy, h])]
  · intro dec d v h
    rw [processLine_org, if_pos (by simp [falsy, h])]
    by_cases hdep : 1 < (pySplitChar ';' (pyRStripChar ';' (pyStrip v))).length ∧
        pyStrip ((pySplitChar ';' (pyRStripChar ';' (pyStrip v))).getD 1 "") ≠ ""
    · rw [if_pos hdep]
    · rw [if_neg hdep]

/-- Witness for `C10_empty_first_gate` at a concrete record and line. -/
theorem C10_witness :
    ({ emptyVCard with FN := some "" } : VCardData).FN = some "" ∧
      (processLine decNone { emptyVCard with FN := some "" } ("FN:" ++ "Bob")).FN =
        some (pyStrip "Bob") :=
  ⟨rfl, C10_empty_first_gate.1 decNone { emptyVCard with FN := some "" } "Bob" rfl⟩

/-- C6: over any sequence of PHOTO lines, the stored photo payload is the
result of the last line whose decode succeeds — a failure leaves the
previous payload, a later success overwrites it (no first-wins gate). -/
theorem C6_photo_last_success_wins (dec : String → Option (List Nat))
    (d : VCardData) (vs : List String) :
    (processLines dec (vs.map (fun v => "PHOTO:" ++ v)) d).PHOTO =
      ((vs.filterMap (fun v => dec (pyStrip v))).getLast?).elim d.PHOTO some := by
  induction vs generalizing d with
  | nil => rfl
  | cons v vs ih =>
    rw [List.map_cons, processLines_cons, ih, processLine_photo]
    cases hv : dec (pyStrip v) with
    | none => simp [List.filterMap_cons, hv]
    | some p =>
      simp only [List.filterMap_cons, hv]
      cases hL : vs.filterMap (fun x => dec (pyStrip x)) with
      | nil => simp
      | cons x xs =>
        rw [List.getLast?_cons_cons]
        cases hg : (x :: xs).getLast? with
        | none => exact absurd (List.getLast?_eq_none_iff.mp hg) (by simp)
        | some z => simp

/-- The key of a logical line, as `parse_vcard` extracts it. -/
def lineKey (l : String) : String :=
  (split_key_and_params (splitFirst ':' l).1).1

/-- The keys the dispatch chain of `parse_vcard` reacts to (including the
ignored frame keys `BEGIN` and `END`). -/
def knownKeys : List String :=
  ["FN", "ORG", "TITLE", "TEL", "EMAIL", "ADR", "URL", "NOTE",
   "X-SOCIALPROFILE", "PHOTO", "VERSION", "PRODID", "BEGIN", "END"]

/-- A line whose key is neither known nor a grouped `.URL` key. -/
def unknownKey (l : String) : Bool :=
  decide (lineKey l ∉ knownKeys) && !(pyEndsWith (lineKey l) ".URL")

/-- A line without a colon is skipped. -/
theorem processLine_no_colon (dec : String → Option (List Nat)) (d : VCardData)
    (l : String) (hc : strContains l ':' = false) : processLine dec d l = d := by
  unfold processLine
  rw [if_pos hc]

/-- `dispatch` ignores a key that is neither known nor `.URL`-suffixed. -/
theorem dispatch_unknown (dec : String → Option (List Nat)) (d : VCardData)
    (key : String) (params : List String) (value : String)
    (hmem : key ∉ knownKeys) (hsuf : pyEndsWith key ".URL" = false) :
    dispatch dec d key params value = d := by
  simp only [knownKeys, List.mem_cons, List.not_mem_nil, or_false] at hmem
  push_neg at hmem
  obtain ⟨h1, h2, h3, h4, h5, h6, h7, h8, h9, h10, h11, h12, h13, h14⟩ := hmem
  unfold dispatch
  rw [if_neg h1, if_neg h2, if_neg h3, if_neg h4, if_neg h5, if_neg h6,
    if_neg (by simp [h7, hsuf]), if_neg h8, if_neg h9, if_neg h10, if_neg h11,
    if_neg h12]

/-- A line with an unknown key is skipped. -/
theorem processLine_unknown (dec : String → Option (List Nat)) (d : VCardData)
    (l : String) (h : unknownKey l = true) : processLine dec d l = d := by
  have hm : lineKey l ∉ knownKeys ∧ pyEndsWith (lineKey l) ".URL" = false := by
    simpa [unknownKey] using h
  by_cases hc : strContains l ':' = false
  · exact processLine_no_colon dec d l hc
  · unfold processLine
    rw [if_neg hc]
    exact dispatch_unknown dec d _ _ _ hm.1 hm.2

/-- `dispatch` on a PHOTO key whose decode fails leaves the record as is. -/
theorem dispatch_photo_none (dec : String → Option (List Nat)) (d : VCardData)
    (params : List String) (value : String) (hd : dec value = none) :
    dispatch dec d "PHOTO" params value = d := by
  unfold dispatch
  rw [if_neg (by decide), if_neg (by decide), if_neg (by decide), if_neg (by decide),
    if_neg (by decide), if_neg (by decide), if_neg (by decide), if_neg (by decide),
    if_neg (by decide), if_pos rfl, hd]

/-- A PHOTO line whose decode fails is skipped. -/
theorem processLine_photo_fail (dec : String → Option (List Nat)) (d : VCardData)
    (l : String) (hk : lineKey l = "PHOTO") (hc : strContains l ':' = true)
    (hd : dec (pyStrip (splitFirst ':' l).2) = none) :
    processLine dec d l = d := by
  unfold processLine
  rw [if_neg (by simp [hc])]
  have hk2 : (split_key_and_params (splitFirst ':' l).1).1 = "PHOTO" := hk
  show dispatch dec d (split_key_and_params (splitFirst ':' l).1).1
    (split_key_and_params (splitFirst ':' l).1).2 (pyStrip (splitFirst ':' l).2) = d
  rw [hk2]
  exact dispatch_photo_none dec d _ _ hd

/-- C9: the parser is total by construction (`parse_vcard` is a Lean
function on all inputs), and malformed units are transparent: a line
without a colon, a line with an unknown key, and a PHOTO line whose decode
fails each contribute nothing, while all other lines are still
processed. -/
theorem C9_malformed_skipped (dec : String → Option (List Nat)) (d : VCardData)
    (pre post : List String) (l : String) :
    (strContains l ':' = false →
       processLines dec (pre ++ l :: post) d = processLines dec (pre ++ post) d) ∧
    (unknownKey l = true →
       processLines dec (pre ++ l :: post) d = processLines dec (pre ++ post) d) ∧
    (lineKey l = "PHOTO" → strContains l ':' = true →
       dec (pyStrip (splitFirst ':' l).2) = none →
       processLines dec (pre ++ l :: post) d = processLines dec (pre ++ post) d) := by
  have key : (∀ x, processLine dec x l = x) →
      processLines dec (pre ++ l :: post) d = processLines dec (pre ++ post) d := by
    intro hid
    unfold processLines
    rw [List.foldl_append, List.foldl_append]
    rw [show List.foldl (processLine dec) (List.foldl (processLine dec) d pre) (l :: post) =
        List.foldl (processLine dec)
          (processLine dec (List.foldl (processLine dec) d pre) l) post from rfl]
    rw [hid]
  exact ⟨fun h => key (fun x => processLine_no_colon dec x l h),
         fun h => key (fun x => processLine_unknown dec x l h),
         fun h1 h2 h3 => key (fun x => processLine_photo_fail dec x l h1 h2 h3)⟩

/-- Witness for `C9_malformed_skipped`: a colon-free line and an
unknown-key line each leave the parse unchanged. -/
theorem C9_witness :
    strContains "garbage without separator" ':' = false ∧
    unknownKey "X-UNKNOWN:foo" = true ∧
    processLines decNone (["FN:Alice"] ++ "garbage without separator" :: ["TITLE:Boss"])
        emptyVCard =
      processLines decNone (["FN:Alice"] ++ ["TITLE:Boss"]) emptyVCard ∧
    processLines decNone (["FN:Alice"] ++ "X-UNKNOWN:foo" :: ["TITLE:Boss"]) emptyVCard =
      processLines decNone (["FN:Alice"] ++ ["TITLE:Boss"]) emptyVCard :=
  ⟨by decide, by decide,
   (C9_malformed_skipped decNone emptyVCard ["FN:Alice"] ["TITLE:Boss"]
     "garbage without separator").1 (by decide),
   (C9_malformed_skipped decNone emptyVCard ["FN:Alice"] ["TITLE:Boss"]
     "X-UNKNOWN:foo").2.1 (by decide)⟩

/-- C7: the address value `;;Main St;Springfield;;12345` yields exactly the
display lines `"Main St"` and `"12345 Springfield"` (street from split
position 2, "postal city" from positions 5 and 3), and an address entry
with zero non-empty display lines draws nothing — only the 6-unit gap is
applied. -/
theorem C7_address_lines :
    (adrLines ";;Main St;Springfield;;12345" = ["Main St", "12345 Springfield"]) ∧
    (∀ (E : Env) (st : RState) (e : AnnotatedValue),
       adrLines e.value = [] → adrEntryStep E st e = ⟨st.y - 6, st.ops⟩) := by
  refine ⟨by decide, ?_⟩
  intro E st e h
  unfold adrEntryStep
  rw [h]
  rfl

/-- Witness for `C7_address_lines` at a concrete empty-valued entry. -/
theorem C7_witness :
    adrLines ("" : String) = [] ∧
      adrEntryStep env0 st0 ⟨"", []⟩ = ⟨st0.y - 6, st0.ops⟩ :=
  ⟨by decide, C7_address_lines.2 env0 st0 ⟨"", []⟩ (by decide)⟩

/-- C8: rendering is deterministic and free of cross-call state — in the
driver loop, rendering the same record twice (even with other records in
between) produces the literally identical operation sequence both times;
in particular the WORK-phone counter starts fresh in each `build_pdf`
call. -/
theorem C8_render_deterministic (E : Env) (vc : VCardData) (name : String)
    (year : ℕ) (mid : List (VCardData × String)) :
    processRecords E ((vc, name) :: mid ++ [(vc, name)]) year =
      build_pdf E vc name year :: processRecords E mid year ++
        [build_pdf E vc name year] := by
  simp [processRecords]

/-- C1 (counterexample): a social entry classified OTHER whose handle
begins with `www.` DOES get a synthesized URL and a clickable region —
`build_social_url` checks the handle prefix before the network. -/
theorem C1_counterexample :
    classify_from_params ([] : List String) "SOCIAL" = "OTHER" ∧
    build_social_url "OTHER" "www.example.com" = some "https://www.example.com" ∧
    (socialRow env0 st0 ⟨"www.example.com", []⟩).ops.filter isLink ≠ [] := by
  decide

/-- C1 (amended): a social entry classified OTHER synthesizes no URL and
registers no clickable region provided its trimmed handle does not begin
(case-insensitively) with `http://`, `https://` or `www.`; a handle with
such a prefix yields a URL (verbatim, or with `https://` prepended for
`www.`) and a clickable region even for OTHER. -/
theorem C1_social_other_no_url (E : Env) (st : RState) (e : AnnotatedValue)
    (hc : classify_from_params e.params "SOCIAL" = "OTHER")
    (h1 : pyStartsWith (pyLower (pyStrip (socialHandle e.value))) "http://" = false)
    (h2 : pyStartsWith (pyLower (pyStrip (socialHandle e.value))) "https://" = false)
    (h3 : pyStartsWith (pyLower (pyStrip (socialHandle e.value))) "www." = false) :
    build_social_url (classify_from_params e.params "SOCIAL") (socialHandle e.value) =
      none ∧
    (socialRow E st e).ops.filter isLink = st.ops.filter isLink := by
  have hb : build_social_url "OTHER" (socialHandle e.value) = none := by
    unfold build_social_url
    by_cases he : pyStrip (socialHandle e.value) == ""
    · rw [if_pos he]
    · rw [if_neg he]
      rw [if_neg (by simp [h1, h2])]
      rw [if_neg (by simp [h3])]
      rw [if_neg (by decide), if_neg (by decide), if_neg (by decide),
        if_neg (by decide), if_neg (by decide)]
  refine ⟨by rw [hc]; exact hb, ?_⟩
  unfold socialRow
  rw [hc]
  dsimp only
  rw [hb]
  unfold new_page_if_needed
  by_cases hy : st.y < min_y
  · rw [if_pos hy]
    simp [List.filter_append, isLink, socialLabel]
  · rw [if_neg hy]
    simp [List.filter_append, isLink, socialLabel]

/-- Witness for `C1_social_other_no_url` at a concrete unclassified entry. -/
theorem C1_witness :
    classify_from_params ([] : List String) "SOCIAL" = "OTHER" ∧
    build_social_url (classify_from_params ([] : List String) "SOCIAL")
        (socialHandle "@user") = none ∧
    (socialRow env0 st0 ⟨"@user", []⟩).ops.filter isLink = st0.ops.filter isLink :=
  ⟨by decide,
   (C1_social_other_no_url env0 st0 ⟨"@user", []⟩ (by decide) (by decide) (by decide)
     (by decide)).1,
   (C1_social_other_no_url env0 st0 ⟨"@user", []⟩ (by decide) (by decide) (by decide)
     (by decide)).2⟩

/-- The phone classification of one entry (`classify_from_params` on its
params with kind TEL). -/
def telKind (e : AnnotatedValue) : String :=
  classify_from_params e.params "TEL"

/-- The phone label as a function of the classification and of whether a
WORK phone was already seen. -/
def telLabelB (kind : String) (seenBefore : Bool) : Option String :=
  if kind = "MOBILE" then some "Mobil"
  else if kind = "WORK" then
    (if seenBefore then some "Geschäftlich" else some "Zentrale")
  else if kind = "HOME" then some "Privat"
  else none

/-- The labelling rule as the specification states it: a function of the
entry's classification and the number of WORK-classified entries strictly
before it in the phone list. -/
def telLabelSpec (kind : String) (w : ℕ) : Option String :=
  if kind = "MOBILE" then some "Mobil"
  else if kind = "WORK" then (if w = 0 then some "Zentrale" else some "Geschäftlich")
  else if kind = "HOME" then some "Privat"
  else none

/-- The number of WORK-classified phones strictly before index `i`. -/
def workBefore (tels : List AnnotatedValue) (i : ℕ) : ℕ :=
  ((tels.take i).filter (fun e => telKind e == "WORK")).length

/-- Head equation of the phone-labelling loop: the head is labelled from
the current `seen_work` flag, and the flag passed on is the old flag or-ed
with the head being WORK-classified. -/
theorem telEntriesGo_cons (seen : Bool) (e : AnnotatedValue)
    (rest : List AnnotatedValue) :
    telEntriesGo seen (e :: rest) =
      (telLabelB (telKind e) seen, e.value) ::
        telEntriesGo (seen || (telKind e == "WORK")) rest := by
  by_cases hm : classify_from_params e.params "TEL" = "MOBILE"
  · simp [telEntriesGo, telKind, telLabelB, hm]
  · by_cases hw : classify_from_params e.params "TEL" = "WORK"
    · cases seen <;> simp [telEntriesGo, telKind, telLabelB, hm, hw]
    · have hwb : (classify_from_params e.params "TEL" == "WORK") = false :=
        beq_eq_false_iff_ne.mpr hw
      by_cases hh : classify_from_params e.params "TEL" = "HOME"
      · simp [telEntriesGo, telKind, telLabelB, hm, hw, hh, hwb]
      · simp [telEntriesGo, telKind, telLabelB, hm, hw, hh, hwb]

/-- Indexed characterization of the phone-labelling loop for any initial
flag: the label at index `i` depends only on the entry's classification and
on whether the flag was set or a WORK entry precedes index `i`. -/
theorem telEntriesGo_get :
    ∀ (tels : List AnnotatedValue) (seen : Bool) (i : ℕ),
      (telEntriesGo seen tels)[i]? =
        (tels[i]?).map (fun e =>
          (telLabelB (telKind e)
            (seen || (tels.take i).any (fun x => telKind x == "WORK")), e.value))
  | [], seen, i => by simp [telEntriesGo]
  | e :: rest, seen, i => by
    rw [telEntriesGo_cons]
    cases i with
    | zero => simp
    | succ n =>
      simp only [List.getElem?_cons_succ]
      rw [telEntriesGo_get rest (seen || (telKind e == "WORK")) n]
      cases hr : rest[n]? <;>
        simp [List.take_succ_cons, List.any_cons, Bool.or_assoc]

/-- `List.any` expressed through the length of the filtered list. -/
theorem any_eq_decide_filter {α : Type} (p : α → Bool) :
    ∀ (l : List α), l.any p = decide ((l.filter p).length ≠ 0)
  | [] => by simp
  | a :: l => by
    by_cases hpa : p a <;>
      simp [List.filter_cons, hpa, any_eq_decide_filter p l]

/-- The Bool-flag label agrees with the WORK-count label. -/
theorem telLabelB_eq_spec (kind : String) (w : ℕ) :
    telLabelB kind (decide (w ≠ 0)) = telLabelSpec kind w := by
  unfold telLabelB telLabelSpec
  by_cases h : w = 0 <;> simp [h]

/-- A concrete phone list classified [WORK, WORK, MOBILE, HOME]. -/
def demoTels : List AnnotatedValue :=
  [⟨"+49 30 1", ["WORK"]⟩, ⟨"+49 30 2", ["WORK"]⟩,
   ⟨"+49 170 3", ["CELL"]⟩, ⟨"+49 30 4", ["HOME"]⟩]

/-- C4: each rendered phone label is determined by the entry's
classification and a stateful counter over WORK entries only — MOBILE maps
to "Mobil", a WORK entry maps to "Zentrale" when no WORK entry precedes it
and to "Geschäftlich" otherwise, HOME maps to "Privat", OTHER gets no
label and its value is drawn at the label column position; in particular
[WORK, WORK, MOBILE, HOME] yields [Zentrale, Geschäftlich, Mobil,
Privat]. -/
theorem C4_phone_labels :
    (∀ (tels : List AnnotatedValue) (i : ℕ),
       (telEntries tels)[i]? =
         (tels[i]?).map (fun e =>
           (telLabelSpec (telKind e) (workBefore tels i), e.value))) ∧
    ((telEntries demoTels).map Prod.fst =
       [some "Zentrale", some "Geschäftlich", some "Mobil", some "Privat"]) ∧
    (∀ (E : Env) (st : RState) (v : String),
       draw_entry_row E st (none, v) =
         ⟨(new_page_if_needed E st).y - 14,
          (new_page_if_needed E st).ops ++
            [DrawOp.text "Helvetica" 11 x_margin (new_page_if_needed E st).y v]⟩) := by
  refine ⟨?_, by decide, ?_⟩
  · intro tels i
    unfold telEntries
    rw [telEntriesGo_get]
    cases hr : tels[i]? with
    | none => simp
    | some a =>
      simp only [Option.map_some']
      rw [Bool.false_or, any_eq_decide_filter, telLabelB_eq_spec]
      rfl
  · intro E st v
    rfl

/-- A drawing operation respects the pagination threshold: every text row
sits at or above `min_y` (page breaks and link regions are not rows). -/
def rowOk : DrawOp → Bool
  | DrawOp.text _ _ _ yv _ => decide (min_y ≤ yv)
  | _ => true

/-- All operations emitted so far respect the pagination threshold. -/
def GoodOps (st : RState) : Prop := st.ops.all rowOk = true

/-- After the page check the offset is always at or above the threshold
(on a tall-enough page). -/
theorem npin_y (E : Env) (st : RState) (hE : 130 ≤ E.height) :
    min_y ≤ (new_page_if_needed E st).y := by
  unfold new_page_if_needed
  by_cases hy : st.y < min_y
  · rw [if_pos hy]
    show min_y ≤ E.height - 60
    unfold min_y
    linarith
  · rw [if_neg hy]
    exact not_lt.mp hy

/-- The page check emits at most a page break, preserving `GoodOps`. -/
theorem npin_goodOps (E : Env) (st : RState) (h : GoodOps st) :
    GoodOps (new_page_if_needed E st) := by
  unfold new_page_if_needed
  by_cases hy : st.y < min_y
  · rw [if_pos hy]
    unfold GoodOps at *
    simp [List.all_append, h, rowOk]
  · rw [if_neg hy]
    exact h

/-- `GoodOps` is preserved by any fold whose step preserves it. -/
theorem foldl_goodOps {α : Type} (f : RState → α → RState)
    (hf : ∀ (st : RState) (a : α), GoodOps st → GoodOps (f st a)) :
    ∀ (l : List α) (st : RState), GoodOps st → GoodOps (List.foldl f st l)
  | [], _, h => h
  | a :: l, st, h => foldl_goodOps f hf l (f st a) (hf st a h)

/-- An `ite` of two good states is good. -/
theorem goodOps_ite (c : Prop) [Decidable c] (s1 s2 : RState)
    (h1 : GoodOps s1) (h2 : GoodOps s2) : GoodOps (if c then s1 else s2) := by
  split
  · exact h1
  · exact h2

/-- `add_spacing` draws nothing. -/
theorem add_spacing_good (a : ℚ) (st : RState) (h : GoodOps st) :
    GoodOps (add_spacing a st) := h

/-- `draw_heading` draws its row at the checked offset. -/
theorem draw_heading_good (E : Env) (t : String) (st : RState)
    (hE : 130 ≤ E.height) (h : GoodOps st) : GoodOps (draw_heading E t st) := by
  unfold draw_heading
  have h1 := npin_goodOps E st h
  have h2 := npin_y E st hE
  unfold GoodOps at *
  simp [List.all_append, h1, rowOk, h2]

/-- One `draw_lines` row is drawn at the checked offset. -/
theorem draw_line_step_good (E : Env) (font : String) (size leading : ℚ)
    (st : RState) (line : String) (hE : 130 ≤ E.height) (h : GoodOps st) :
    GoodOps (draw_line_step E font size leading st line) := by
  unfold draw_line_step
  have h1 := npin_goodOps E st h
  have h2 := npin_y E st hE
  unfold GoodOps at *
  simp [List.all_append, h1, rowOk, h2]

/-- `draw_lines` checks before every row. -/
theorem draw_lines_good (E : Env) (font : String) (size leading : ℚ) (t : String)
    (st : RState) (hE : 130 ≤ E.height) (h : GoodOps st) :
    GoodOps (draw_lines E font size leading t st) := by
  unfold draw_lines
  by_cases ht : t == ""
  · rw [if_pos ht]
    exact h
  · rw [if_neg ht]
    exact foldl_goodOps _ (fun st' a h' => draw_line_step_good E font size leading st' a hE h') _ st h

/-- The `draw_label_paragraph` loop checks before every row. -/
theorem dlpAux_good (E : Env) (lt : String) (leading : ℚ) (hE : 130 ≤ E.height) :
    ∀ (lines : List String) (first : Bool) (st : RState), GoodOps st →
      GoodOps (dlpAux E lt leading first lines st)
  | [], _, _, h => h
  | line :: rest, first, st, h => by
    have h1 := npin_goodOps E st h
    have h2 := npin_y E st hE
    apply dlpAux_good E lt leading hE rest false
    unfold GoodOps at *
    cases first <;> simp [List.all_append, h1, rowOk, h2]

/-- `draw_label_paragraph` checks before every row. -/
theorem draw_label_paragraph_good (E : Env) (label : String) (lines : List String)
    (leading : ℚ) (st : RState) (hE : 130 ≤ E.height) (h : GoodOps st) :
    GoodOps (draw_label_paragraph E label lines leading st) := by
  unfold draw_label_paragraph
  by_cases hl : lines.isEmpty
  · rw [if_pos hl]
    exact h
  · rw [if_neg hl]
    exact dlpAux_good E _ leading hE lines true _ (npin_goodOps E st h)

/-- A TEL/EMAIL row is drawn at the checked offset. -/
theorem draw_entry_row_good (E : Env) (st : RState) (p : Option String × String)
    (hE : 130 ≤ E.height) (h : GoodOps st) : GoodOps (draw_entry_row E st p) := by
  unfold draw_entry_row
  have h1 := npin_goodOps E st h
  have h2 := npin_y E st hE
  obtain ⟨lopt, v⟩ := p
  cases lopt <;>
    · unfold GoodOps at *
      simp [List.all_append, h1, rowOk, h2]

/-- The TEL section checks before every row. -/
theorem telSection_good (E : Env) (tels : List AnnotatedValue) (st : RState)
    (hE : 130 ≤ E.height) (h : GoodOps st) : GoodOps (telSection E tels st) := by
  unfold telSection
  by_cases he : tels.isEmpty
  · rw [if_pos he]
    exact h
  · rw [if_neg he]
    exact add_spacing_good _ _ (foldl_goodOps _
      (fun st' a h' => draw_entry_row_good E st' a hE h') _ _
      (draw_heading_good E _ st hE h))

/-- The EMAIL section checks before every row. -/
theorem emailSection_good (E : Env) (emails : List AnnotatedValue) (st : RState)
    (hE : 130 ≤ E.height) (h : GoodOps st) : GoodOps (emailSection E emails st) := by
  unfold emailSection
  by_cases he : emails.isEmpty
  · rw [if_pos he]
    exact h
  · rw [if_neg he]
    exact add_spacing_good _ _ (foldl_goodOps _
      (fun st' a h' => draw_entry_row_good E st' a hE h') _ _
      (draw_heading_good E _ st hE h))

/-- One address entry checks before every row it draws. -/
theorem adrEntryStep_good (E : Env) (st : RState) (e : AnnotatedValue)
    (hE : 130 ≤ E.height) (h : GoodOps st) : GoodOps (adrEntryStep E st e) := by
  unfold adrEntryStep
  apply add_spacing_good
  exact goodOps_ite _ _ _ h (draw_label_paragraph_good E _ _ _ st hE h)

/-- The ADR section checks before every row. -/
theorem adrSection_good (E : Env) (adrs : List AnnotatedValue) (st : RState)
    (hE : 130 ≤ E.height) (h : GoodOps st) : GoodOps (adrSection E adrs st) := by
  unfold adrSection
  by_cases he : adrs.isEmpty
  · rw [if_pos he]
    exact h
  · rw [if_neg he]
    exact add_spacing_good _ _ (foldl_goodOps _
      (fun st' a h' => adrEntryStep_good E st' a hE h') _ _
      (draw_heading_good E _ st hE h))

/-- A URL row is drawn at the checked offset. -/
theorem urlRow_good (E : Env) (single : Bool) (st : RState)
    (p : Option String × String) (hE : 130 ≤ E.height) (h : GoodOps st) :
    GoodOps (urlRow E single st p) := by
  unfold urlRow
  have h1 := npin_goodOps E st h
  have h2 := npin_y E st hE
  unfold GoodOps at *
  simp [List.all_append, h1, rowOk, h2]

/-- The URL section checks before every row. -/
theorem urlSection_good (E : Env) (urls : List AnnotatedValue) (st : RState)
    (hE : 130 ≤ E.height) (h : GoodOps st) : GoodOps (urlSection E urls st) := by
  unfold urlSection
  by_cases he : urls.isEmpty
  · rw [if_pos he]
    exact h
  · rw [if_neg he]
    exact add_spacing_good _ _ (foldl_goodOps _
      (fun st' a h' => urlRow_good E _ st' a hE h') _ _
      (draw_heading_good E _ st hE h))

/-- A social row is drawn at the checked offset; its link op is not a row. -/
theorem socialRow_good (E : Env) (st : RState) (e : AnnotatedValue)
    (hE : 130 ≤ E.height) (h : GoodOps st) : GoodOps (socialRow E st e) := by
  unfold socialRow
  have h1 := npin_goodOps E st h
  have h2 := npin_y E st hE
  dsimp only
  unfold GoodOps at *
  cases hsl : socialLabel (classify_from_params e.params "SOCIAL") <;>
    cases hurl : build_social_url (classify_from_params e.params "SOCIAL")
      (socialHandle e.value) <;>
    simp [List.all_append, h1, rowOk, h2]

/-- The SOCIAL section checks before every row. -/
theorem socialSection_good (E : Env) (socials : List AnnotatedValue) (st : RState)
    (hE : 130 ≤ E.height) (h : GoodOps st) : GoodOps (socialSection E socials st) := by
  unfold socialSection
  by_cases he : socials.isEmpty
  · rw [if_pos he]
    exact h
  · rw [if_neg he]
    exact add_spacing_good _ _ (foldl_goodOps _
      (fun st' a h' => socialRow_good E st' a hE h') _ _
      (draw_heading_good E _ st hE h))

/-- The NOTE section checks before every row. -/
theorem notesSection_good (E : Env) (notes : List String) (st : RState)
    (hE : 130 ≤ E.height) (h : GoodOps st) : GoodOps (notesSection E notes st) := by
  unfold notesSection
  by_cases he : notes.isEmpty
  · rw [if_pos he]
    exact h
  · rw [if_neg he]
    exact foldl_goodOps _
      (fun st' a h' => draw_lines_good E _ _ _ a st' hE h') _ _
      (draw_heading_good E _ _ hE (add_spacing_good _ st h))

/-- The whole body checks before every row. -/
theorem renderBody_good (E : Env) (vc : VCardData) (st : RState)
    (hE : 130 ≤ E.height) (h : GoodOps st) : GoodOps (renderBody E vc st) := by
  unfold renderBody
  have g1 : GoodOps (if falsy vc.ORG = true then st
      else draw_lines E "Helvetica" 12 14 (vc.ORG.getD "") st) :=
    goodOps_ite _ _ _ h (draw_lines_good E "Helvetica" 12 14 (vc.ORG.getD "") st hE h)
  have g2 := goodOps_ite ((falsy vc.TITLE && falsy vc.DEPT) = true) _ _ g1
    (add_spacing_good 14 _ g1)
  have g3 := goodOps_ite (falsy vc.TITLE = true) _ _ g2
    (draw_label_paragraph_good E "Position" [vc.TITLE.getD ""] 14 _ hE g2)
  have g4 := goodOps_ite (falsy vc.DEPT = true) _ _ g3
    (draw_label_paragraph_good E "Abteilung" [vc.DEPT.getD ""] 14 _ hE g3)
  exact notesSection_good E _ _ hE (socialSection_good E _ _ hE (urlSection_good E _ _ hE
    (adrSection_good E _ _ hE (emailSection_good E _ _ hE (telSection_good E _ _ hE
      (add_spacing_good 24 _ g4))))))

/-- The title row sits at the top margin, above the threshold. -/
theorem titleInit_good (E : Env) (vc : VCardData) (name : String)
    (hE : 130 ≤ E.height) : GoodOps (titleInit E vc name) := by
  unfold titleInit GoodOps
  dsimp only
  simp only [List.all_cons, List.all_nil, Bool.and_true, rowOk, decide_eq_true_eq]
  unfold min_y
  linarith

/-- C5: the renderer checks the offset immediately before every content
row: when the offset is below the fixed threshold it advances to a new
page and resets to the top margin (and does nothing otherwise), and
consequently every text row emitted by the content part of `build_pdf`
(title and all sections, including each line of a multi-line entry) sits
at or above the threshold. -/
theorem C5_pagination (E : Env) (vc : VCardData) (name : String) (st : RState)
    (hE : 130 ≤ E.height) :
    (st.y < min_y → new_page_if_needed E st = ⟨E.height - 60, st.ops ++ [DrawOp.page]⟩) ∧
    (¬ st.y < min_y → new_page_if_needed E st = st) ∧
    (contentState E vc name).ops.all rowOk = true := by
  refine ⟨fun hy => ?_, fun hy => ?_, ?_⟩
  · unfold new_page_if_needed
    rw [if_pos hy]
  · unfold new_page_if_needed
    rw [if_neg hy]
  · exact renderBody_good E vc _ hE (titleInit_good E vc name hE)

/-- A short page (still above the minimum geometry) for exercising page
breaks. -/
def envW : Env := ⟨150, 595, fun _ _ _ => 10⟩

/-- A record with enough rows to overflow the short page. -/
def vcW : VCardData :=
  { emptyVCard with
    FN := some "Max Mustermann"
    ORG := some "Acme"
    TITLE := some "CTO"
    TEL := demoTels
    EMAIL := [⟨"max@acme.example", ["WORK"]⟩]
    NOTE := ["Hello"] }

/-- Witness for `C5_pagination` on a concrete short page and record. -/
theorem C5_witness :
    (130 : ℚ) ≤ envW.height ∧
      (contentState envW vcW "file.vcf").ops.all rowOk = true :=
  ⟨by decide, (C5_pagination envW vcW "file.vcf" st0 (by decide)).2.2⟩
